import Mathlib

/-!
# Verification of the Hasiru Mitra voice processing system

Shallow embedding of `src/hasiru-mitra-ai/voice_processing_system.py`
(the multilingual voice conversation pipeline), together with theorems
settling the behavioural claims about it.

Modelling conventions:
* Python dicts become insertion-ordered association lists
  (`List (String × α)`); `dict[k] = v` keeps the key's position,
  `dict.update` replaces values of existing keys in place and appends
  new keys at the end, exactly as CPython does.
* Python float confidences become exact rationals (`ℚ`); the numeric
  literals of the source are written as fractions (`0.8` as `4/5`, …).
* Calls into external services (Whisper, Azure, the HuggingFace
  pipelines, `langdetect`) are parameters of the embedded functions:
  `none` models the call raising, `some r` models it returning `r`.
* A Python function that can raise an uncaught exception is embedded
  as an `Option`-returning function, `none` being the exception.
-/

/-! ## String containment (Python's `in` operator on `str`) -/

/-- Prefix test on character lists (`==` on `Char` is codepoint equality). -/
def isPrefixL : List Char → List Char → Bool
  | [], _ => true
  | _ :: _, [] => false
  | a :: as, b :: bs => a == b && isPrefixL as bs

/-- Substring occurrence test on character lists. -/
def containsSub (p : List Char) : List Char → Bool
  | [] => p.isEmpty
  | c :: rest => isPrefixL p (c :: rest) || containsSub p rest

/-- Python's `needle in haystack` on strings: substring containment. -/
def strContains (haystack needle : String) : Bool :=
  containsSub needle.toList haystack.toList

/-! ## Association lists: the model of Python `dict` -/

/-- `m[k]` as a total lookup: the value of the first binding of `k`. -/
def assocGet? {α : Type} : List (String × α) → String → Option α
  | [], _ => none
  | (k', v) :: t, k => if k' = k then some v else assocGet? t k

/-- Python's `k in m` membership test on a dict. -/
def assocMem {α : Type} : List (String × α) → String → Bool
  | [], _ => false
  | (k', _) :: t, k => if k' = k then true else assocMem t k

/-- Replace the value of every binding of `k` (dicts bind a key once). -/
def assocReplace {α : Type} : List (String × α) → String → α → List (String × α)
  | [], _, _ => []
  | (k', v') :: t, k, v =>
    if k' = k then (k, v) :: assocReplace t k v else (k', v') :: assocReplace t k v

/-- Python's `m[k] = v`: overwrite in place if present, else append. -/
def assocSet {α : Type} (m : List (String × α)) (k : String) (v : α) : List (String × α) :=
  if assocMem m k then assocReplace m k v else m ++ [(k, v)]

/-- Python's `m.update(other)`: fold `m[k] = v` over `other` in order. -/
def dictUpdate {α : Type} (m other : List (String × α)) : List (String × α) :=
  other.foldl (fun acc p => assocSet acc p.1 p.2) m

/-! ## Data model -/

/-- One extracted entity occurrence: the `{'value': …, 'confidence': …}`
dicts built by `MultilingualNLU._extract_entities` and
`_extract_agricultural_entities`. -/
structure EntityValue where
  value : String
  confidence : ℚ
  deriving DecidableEq, Repr

/-- The entity map: entity type ↦ ordered list of occurrences. -/
abbrev EntityMap := List (String × List EntityValue)

/-- One turn record appended to `conversation_history` by
`ConversationManager.update_context`. -/
structure TurnRecord where
  timestamp : String
  user_input : String
  intent : String
  entities : EntityMap
  response : String
  deriving DecidableEq, Repr

/-- The `ConversationContext` dataclass.  The opaque profile blobs are
kept as (unused) string dicts. -/
structure ConversationContext where
  user_id : String
  session_id : String
  language : String
  current_intent : String
  entities : EntityMap
  conversation_history : List TurnRecord
  user_profile : List (String × String)
  farm_context : List (String × String)
  deriving DecidableEq, Repr

/-! ## LanguageDetector -/

/-- `LanguageDetector.language_keywords`: insertion-ordered dict
`hi → en → kn`, each with its fixed agricultural keyword list. -/
def language_keywords : List (String × List String) :=
  [("hi", ["फसल", "खेत", "बीज", "पानी", "उर्वरक", "कीट", "रोग", "मिट्टी"]),
   ("en", ["crop", "farm", "seed", "water", "fertilizer", "pest", "disease", "soil"]),
   ("kn", ["ಬೆಳೆ", "ಹೊಲ", "ಬೀಜ", "ನೀರು", "ಗೊಬ್ಬರ", "ಕೀಟ", "ರೋಗ", "ಮಣ್ಣು"])]

/-- The `lang_mapping` allow-list inside `_detect_from_text`. -/
def lang_mapping : List (String × String) :=
  [("hi", "hi"), ("en", "en"), ("kn", "kn")]

/-- `LanguageDetector._detect_from_text`.  `stat` is the external
`langdetect.detect` call: `none` models it raising (caught, defaulting
to `'en'`), `some r` models it returning code `r`. -/
def detect_from_text (stat : Option String) (text : String) : String :=
  match (language_keywords.find? (fun p => p.2.any (fun kw => strContains text kw))).map
      Prod.fst with
  | some lang => lang
  | none =>
    match stat with
    | none => "en"
    | some result => (assocGet? lang_mapping result).getD "en"

/-- `LanguageDetector._detect_from_audio`: the placeholder always
returns `None`. -/
def detect_from_audio (_features : Unit) : Option String := none

/-- `LanguageDetector.detect_language`.  When audio features are given,
the code compares the (always-`None`) audio language with the text
language; the comparison `None == text_lang` is false, so both branches
return the text-based result. -/
def detect_language (stat : Option String) (text : String) (audio_features : Option Unit) :
    String :=
  let text_lang := detect_from_text stat text
  match audio_features with
  | some features =>
    match detect_from_audio features with
    | some audio_lang => if audio_lang = text_lang then text_lang else text_lang
    | none => text_lang
  | none => text_lang

/-! ## MultilingualASR -/

/-- `MultilingualASR._whisper_transcribe`.  `engine` is the external
Whisper generation (transcription text and the score-derived
confidence); `none` models the model call raising.  The function then
runs the language detector over the transcription, exactly as the
source does. -/
def whisper_transcribe (stat : Option String) (engine : Option (String × ℚ)) :
    Option (String × String × ℚ) :=
  match engine with
  | none => none
  | some (transcription, confidence) =>
    some (transcription, detect_language stat transcription none, confidence)

/-- `MultilingualASR.transcribe`.  `azure_speech_key` is the truthiness
of the configured key; `azure` is the pair returned by
`_azure_transcribe` (which catches its own failures, returning
`("", 0)`).  A primary failure is caught by the outer handler and
yields `("", "en", 0)`. -/
def transcribe (stat : Option String) (engine : Option (String × ℚ))
    (azure_speech_key : Bool) (azure : String × ℚ) : String × String × ℚ :=
  match whisper_transcribe stat engine with
  | none => ("", "en", 0)
  | some (text, detected_lang, confidence) =>
    if confidence < 7/10 ∧ azure_speech_key then
      let azure_text := azure.1
      let azure_conf := azure.2
      if azure_conf > confidence then (azure_text, detected_lang, azure_conf)
      else (text, detected_lang, confidence)
    else (text, detected_lang, confidence)

/-! ## Regular-expression fragments used by the NLU

The source uses three regex shapes: `\s+` collapsing, `\b(alt|…)\b`
word-bounded alternations (fillers, crops, seasons) and the quantity
pattern `(\d+(?:\.\d+)?)\s*(unit|…)`.  They are modelled as direct
scanners over character lists. -/

/-- Python's `\w` word-character class.  Exact on ASCII; every
non-ASCII character is counted as a word character, which agrees with
Python on the Devanagari/Kannada letters appearing in the source's
pattern tables. -/
def isWordChar (c : Char) : Bool := c.isAlphanum || c == '_' || c.val ≥ 0x80

/-- Python's `\s` class / `str.strip` whitespace (ASCII portion). -/
def isSpaceCh (c : Char) : Bool :=
  c == ' ' || c == '\t' || c == '\n' || c == '\r' || c == '\x0b' || c == '\x0c'

/-- `str.strip()`: drop leading and trailing whitespace. -/
def stripChars (l : List Char) : List Char :=
  ((l.dropWhile isSpaceCh).reverse.dropWhile isSpaceCh).reverse

/-- `re.sub(r'\s+', ' ', ·)`: each maximal whitespace run becomes one
space. -/
def collapseSpaces (l : List Char) : List Char :=
  (l.foldl
    (fun acc c =>
      if isSpaceCh c then (if acc.2 then acc else (' ' :: acc.1, true))
      else (c :: acc.1, false))
    (([] : List Char), false)).1.reverse

/-- `str.lower()`; `Char.toLower` is ASCII-only, matching Python on the
uncased Indic scripts involved. -/
def lowerChars (l : List Char) : List Char := l.map Char.toLower

/-- Case-insensitive literal match of a pattern against the front of
the text; returns the matched original characters and the rest. -/
def ciEat : List Char → List Char → Option (List Char × List Char)
  | [], rest => some ([], rest)
  | _ :: _, [] => none
  | p :: ps, c :: cs =>
    if p.toLower == c.toLower then (ciEat ps cs).map (fun m => (c :: m.1, m.2))
    else none

/-- `\b`: the position between characters `a` and `b` (string edges are
`none`) is a word boundary iff exactly one side is a word character. -/
def boundary (a b : Option Char) : Bool :=
  ((a.map isWordChar).getD false) != ((b.map isWordChar).getD false)

/-- The last matched character, or the previous one when the match was
empty; the lookbehind character for the continued scan. -/
def lastOr (prev : Option Char) (m : List Char) : Option Char :=
  match m.getLast? with
  | some x => some x
  | none => prev

/-- One attempt of `\b(alt₁|alt₂|…)\b` at the current position (`prev`
is the character before it); regex alternation tries the branches in
order. -/
def matchAltsAt (alts : List String) (prev : Option Char) (l : List Char) :
    Option (List Char × List Char) :=
  if boundary prev l.head? then
    alts.findSome? (fun alt =>
      match ciEat alt.toList l with
      | some (m, r) => if boundary (lastOr prev m) r.head? then some (m, r) else none
      | none => none)
  else none

/-- `re.findall(r'\b(alts)\b', text, re.IGNORECASE)`: left-to-right,
non-overlapping; on failure the scan advances one character.  Fuel is
the text length (every step consumes at least one character). -/
def scanWordMatches (alts : List String) : Nat → Option Char → List Char → List (List Char)
  | 0, _, _ => []
  | _ + 1, _, [] => []
  | n + 1, prev, c :: rest =>
    match matchAltsAt alts prev (c :: rest) with
    | some (m, r) => m :: scanWordMatches alts n (lastOr prev m) r
    | none => scanWordMatches alts n (some c) rest

/-- The findall above, packaged on strings. -/
def findallWords (alts : List String) (text : String) : List String :=
  (scanWordMatches alts text.toList.length none text.toList).map (fun cs => String.mk cs)

/-- `re.sub(r'\b(alts)\b', '', text)`: same scan, deleting matches. -/
def removeWordMatches (alts : List String) : Nat → Option Char → List Char → List Char
  | 0, _, l => l
  | _ + 1, _, [] => []
  | n + 1, prev, c :: rest =>
    match matchAltsAt alts prev (c :: rest) with
    | some (m, r) => removeWordMatches alts n (lastOr prev m) r
    | none => c :: removeWordMatches alts n (some c) rest

/-- Longest digit prefix (`\d+`, greedy). -/
def takeDigits : List Char → List Char × List Char
  | [] => ([], [])
  | c :: rest =>
    if c.isDigit then
      let d := takeDigits rest
      (c :: d.1, d.2)
    else ([], c :: rest)

/-- The unit alternation of the quantity pattern, tried in order. -/
def matchUnit (units : List String) (l : List Char) : Option (List Char × List Char) :=
  units.findSome? (fun u =>
    match ciEat u.toList l with
    | some (m, r) => if m.isEmpty then none else some (m, r)
    | none => none)

/-- One attempt of `(\d+(?:\.\d+)?)\s*(units)` at the current position:
number group, optional decimals, greedy whitespace, unit group.  (The
greedy choices cannot change matchability here: no unit starts with a
digit, a dot or whitespace, so backtracking is extensionally void.) -/
def tryMatchQuantity (units : List String) (l : List Char) :
    Option (String × String × List Char) :=
  let d := takeDigits l
  if d.1.isEmpty then none
  else
    let numRest : List Char × List Char :=
      match d.2 with
      | '.' :: r =>
        let f := takeDigits r
        if f.1.isEmpty then d else (d.1 ++ '.' :: f.1, f.2)
      | _ => d
    let r3 := numRest.2.dropWhile isSpaceCh
    match matchUnit units r3 with
    | some (u, rest) => some (String.mk numRest.1, String.mk u, rest)
    | none => none

/-- `re.findall` of the quantity pattern: pairs of captured groups. -/
def scanQuantities (units : List String) : Nat → List Char → List (String × String)
  | 0, _ => []
  | _ + 1, [] => []
  | n + 1, c :: rest =>
    match tryMatchQuantity units (c :: rest) with
    | some (num, u, r) => (num, u) :: scanQuantities units n r
    | none => scanQuantities units n rest

/-! ## MultilingualNLU -/

/-- `MultilingualNLU.multilingual_keywords`: intent ↦ language ↦
keyword list (insertion order `crop_advice`, `pest_disease`). -/
def multilingual_keywords : List (String × List (String × List String)) :=
  [("crop_advice",
    [("hi", ["फसल", "बुआई", "खेती", "उगाना"]),
     ("en", ["crop", "planting", "farming", "growing"]),
     ("kn", ["ಬೆಳೆ", "ಬಿತ್ತನೆ", "ಕೃಷಿ", "ಬೆಳೆಯುವ"])]),
   ("pest_disease",
    [("hi", ["कीट", "रोग", "बीमारी", "नुकसान"]),
     ("en", ["pest", "disease", "insect", "damage"]),
     ("kn", ["ಕೀಟ", "ರೋಗ", "ಕೀಟಕ", "ಹಾನಿ"])])]

/-- The Hindi filler words removed by `_preprocess_text`. -/
def hi_fillers : List String := ["जी", "हाँ", "नहीं", "क्या", "कैसे"]

/-- The Kannada filler words removed by `_preprocess_text`. -/
def kn_fillers : List String := ["ಹೌದು", "ಇಲ್ಲ", "ಏನು", "ಹೇಗೆ"]

/-- `MultilingualNLU._preprocess_text`: strip + collapse whitespace,
remove the language's filler words, lowercase. -/
def preprocess_text (text language : String) : String :=
  let t := collapseSpaces (stripChars text.toList)
  let t :=
    if language = "hi" then removeWordMatches hi_fillers t.length none t
    else if language = "kn" then removeWordMatches kn_fillers t.length none t
    else t
  String.mk (lowerChars t)

/-- `lang_keywords.get(language, lang_keywords.get('en', []))`. -/
def keywordsForLang (tbl : List (String × List String)) (language : String) : List String :=
  match assocGet? tbl language with
  | some ks => ks
  | none => (assocGet? tbl "en").getD []

/-- Python's `max(d, key=d.get)` over an insertion-ordered dict: the
first key attaining the maximal value. -/
def maxByValue : List (String × ℚ) → Option (String × ℚ)
  | [] => none
  | p :: t =>
    match maxByValue t with
    | none => some p
    | some q => if q.2 > p.2 then some q else some p

/-- `MultilingualNLU._classify_intent`.  `ml` is the external
`intent_classifier` pipeline used only on the no-keyword fallback path:
`some _` models the call succeeding (its output is discarded by the
source, which returns `("general_query", 0.6)`), `none` models it
raising (caught, returning `("general_query", 0.5)`). -/
def classify_intent (ml : Option Unit) (text language : String) (ctx : ConversationContext) :
    String × ℚ :=
  let intent_scores : List (String × ℚ) :=
    multilingual_keywords.foldl
      (fun acc p =>
        let keywords := keywordsForLang p.2 language
        let score := (keywords.filter (fun kw => strContains text kw)).length
        if 0 < score then acc ++ [(p.1, (score : ℚ) / (keywords.length : ℚ))] else acc)
      []
  let intent_scores :=
    if ctx.current_intent ≠ "" ∧ assocMem intent_scores ctx.current_intent then
      assocSet intent_scores ctx.current_intent
        (((assocGet? intent_scores ctx.current_intent).getD 0) * (6/5))
    else intent_scores
  match maxByValue intent_scores with
  | some best => (best.1, min (9/10) best.2)
  | none =>
    match ml with
    | some _ => ("general_query", 3/5)
    | none => ("general_query", 1/2)

/-- One raw result of the external NER pipeline: its `entity` tag,
`word` and `score` fields. -/
structure NerHit where
  entity : String
  word : String
  score : ℚ
  deriving DecidableEq, Repr

/-- The `crop_patterns` alternations of
`_extract_agricultural_entities`. -/
def crop_patterns : List (String × List String) :=
  [("hi", ["धान", "गेहूं", "मक्का", "टमाटर", "प्याज", "कपास", "गन्ना", "हल्दी", "मिर्च"]),
   ("en", ["rice", "wheat", "corn", "tomato", "onion", "cotton", "sugarcane", "turmeric",
           "chili"]),
   ("kn", ["ಅಕ್ಕಿ", "ಗೋಧಿ", "ಜೋಳ", "ಟೊಮೇಟೊ", "ಈರುಳ್ಳಿ", "ಕಪಾಸು", "ಕಬ್ಬು", "ಅರಿಶಿನ",
           "ಮೆಣಸಿನಕಾಯಿ"])]

/-- The unit alternation of the `quantity_pattern`. -/
def quantity_units : List String :=
  ["किलो", "kg", "लीटर", "liter", "एकड़", "acre", "हेक्टेयर", "hectare"]

/-- The `season_patterns` alternations. -/
def season_patterns : List (String × List String) :=
  [("hi", ["खरीफ", "रबी", "जायद", "मानसून"]),
   ("en", ["kharif", "rabi", "zaid", "monsoon", "summer", "winter"]),
   ("kn", ["ಖರೀಫ್", "ರಬಿ", "ಜಾಯದ್", "ಮಾನ್ಸೂನ್"])]

/-- `crop_patterns.get(language, crop_patterns['en'])` (same shape for
the season table). -/
def patternForLang (tbl : List (String × List String)) (language : String) : List String :=
  match assocGet? tbl language with
  | some p => p
  | none => (assocGet? tbl "en").getD []

/-- `MultilingualNLU._extract_agricultural_entities`: the three
pattern-based extractions, each key set only when matches exist. -/
def extract_agricultural_entities (text language _intent : String) : EntityMap :=
  let entities : EntityMap := []
  let crops := findallWords (patternForLang crop_patterns language) text
  let entities :=
    if crops = [] then entities
    else assocSet entities "crops" (crops.map (fun c => ⟨c, 4/5⟩))
  let quantities := scanQuantities quantity_units text.toList.length text.toList
  let entities :=
    if quantities = [] then entities
    else assocSet entities "quantities" (quantities.map (fun q => ⟨q.1 ++ " " ++ q.2, 9/10⟩))
  let seasons := findallWords (patternForLang season_patterns language) text
  let entities :=
    if seasons = [] then entities
    else assocSet entities "seasons" (seasons.map (fun s => ⟨s, 4/5⟩))
  entities

/-- `MultilingualNLU._extract_entities`.  `ner` is the external NER
pipeline call: `none` models it raising, in which case the handler
returns the (still empty) map and the pattern extraction never runs.
On success, hits above the 0.5 threshold are grouped by tag and the
agricultural entities are merged in with `dict.update`. -/
def extract_entities (ner : Option (List NerHit)) (text language intent : String) :
    EntityMap :=
  match ner with
  | none => []
  | some ner_results =>
    let entities :=
      ner_results.foldl
        (fun acc h =>
          if h.score > 1/2 then
            assocSet acc h.entity (((assocGet? acc h.entity).getD []) ++ [⟨h.word, h.score⟩])
          else acc)
        ([] : EntityMap)
    dictUpdate entities (extract_agricultural_entities text language intent)

/-- `MultilingualNLU.understand`: preprocess, classify, extract, and
scale the intent confidence (`× 0.8 + 0.2`).  Every failure of an
external call is handled inside the callees, so the outer
`except`-branch of the source (returning `("general_query", {}, 0.5)`)
is unreachable and the function is total. -/
def understand (ml : Option Unit) (ner : Option (List NerHit)) (text language : String)
    (ctx : ConversationContext) : String × EntityMap × ℚ :=
  let cleaned_text := preprocess_text text language
  let r := classify_intent ml cleaned_text language ctx
  let entities := extract_entities ner cleaned_text language r.1
  (r.1, entities, r.2 * (4/5) + 1/5)

/-! ## Response generation (VoiceProcessingSystem) -/

/-- An apostrophe (U+0027), used inside one template string. -/
def apos : String := String.mk [Char.ofNat 39]

/-- `VoiceProcessingSystem._load_response_templates`. -/
def response_templates : List (String × List (String × String)) :=
  [("greeting",
    [("hi", "नमस्ते! मैं हसिरु मित्र हूँ। आपकी खेती में कैसे मदद कर सकती हूँ?"),
     ("en", "Hello! I am Hasiru Mitra. How can I help you with your farming today?"),
     ("kn", "ನಮಸ್ಕಾರ! ನಾನು ಹಸಿರು ಮಿತ್ರ. ನಿಮ್ಮ ಕೃಷಿಯಲ್ಲಿ ನಾನು ಹೇಗೆ ಸಹಾಯ ಮಾಡಬಹುದು?")]),
   ("crop_advice",
    [("hi", "आपकी फसल के बारे में मुझे बताएं। कौन सी फसल उगाना चाहते हैं?"),
     ("en", "Tell me about your crop. Which crop do you want to grow?"),
     ("kn", "ನಿಮ್ಮ ಬೆಳೆಯ ಬಗ್ಗೆ ಹೇಳಿ. ಯಾವ ಬೆಳೆ ಬೆಳೆಯಲು ಬಯಸುತ್ತೀರಿ?")]),
   ("pest_disease",
    [("hi", "आपकी फसल में क्या समस्या है? कृपया विस्तार से बताएं।"),
     ("en", "What problem are you facing with your crop? Please describe in detail."),
     ("kn", "ನಿಮ್ಮ ಬೆಳೆಯಲ್ಲಿ ಏನು ಸಮಸ್ಯೆ ಇದೆ? ದಯವಿಟ್ಟು ವಿಸ್ತಾರವಾಗಿ ಹೇಳಿ.")]),
   ("error",
    [("hi", "माफ़ करें, मुझे समझने में कठिनाई हुई। कृपया फिर से बताएं।"),
     ("en", "Sorry, I had difficulty understanding. Please tell me again."),
     ("kn", "ಕ್ಷಮಿಸಿ, ನನಗೆ ಅರ್ಥಮಾಡಿಕೊಳ್ಳುವಲ್ಲಿ ಕಷ್ಟವಾಯಿತು. ದಯವಿಟ್ಟು ಮತ್ತೆ ಹೇಳಿ.")])]

/-- `self.response_templates[intent_key][language]`: double direct
indexing; a missing key is an uncaught `KeyError` (`none`). -/
def templateFor (intent_key language : String) : Option String :=
  match assocGet? response_templates intent_key with
  | some tbl => assocGet? tbl language
  | none => none

/-- `_generate_crop_advice_response`: interpolate the first crop entity
when present, else the fixed `crop_advice` template (direct indexing on
the language, so unsupported languages raise there).  `entities['crops'][0]`
on an empty list is an uncaught `IndexError` (`none`). -/
def generate_crop_advice_response (entities : EntityMap) (_context : ConversationContext)
    (language : String) : Option String :=
  if assocMem entities "crops" then
    match ((assocGet? entities "crops").getD []).head? with
    | none => none
    | some e =>
      let crop := e.value
      let en_resp :=
        "For " ++ crop ++ " cultivation, first get your soil tested. Choose appropriate seeds."
      let responses : List (String × String) :=
        [("hi", crop ++ " की खेती के लिए सबसे पहले मिट्टी की जांच कराएं। उचित बीज का चयन करें।"),
         ("en", en_resp),
         ("kn", crop ++ " ಬೆಳವಣಿಗೆಗಾಗಿ, ಮೊದಲು ನಿಮ್ಮ ಮಣ್ಣಿನ ಪರೀಕ್ಷೆ ಮಾಡಿಸಿ. ಸೂಕ್ತವಾದ ಬೀಜಗಳನ್ನು ಆಯ್ಕೆಮಾಡಿ.")]
      some ((assocGet? responses language).getD en_resp)
  else templateFor "crop_advice" language

/-- The `'en'` entry of `_generate_pest_response`'s local table. -/
def pest_response_en : String :=
  "Send photos of leaves for pest/disease identification. Meanwhile, spray neem oil."

/-- `_generate_pest_response`: fixed table with `.get(language, en)`. -/
def generate_pest_response (_entities : EntityMap) (_context : ConversationContext)
    (language : String) : String :=
  let responses : List (String × String) :=
    [("hi", "कीट या रोग की पहचान के लिए पत्तियों की तस्वीर भेजें। तब तक नीम का तेल छिड़कें।"),
     ("en", pest_response_en),
     ("kn", "ಕೀಟ ಅಥವಾ ರೋಗ ಗುರುತಿಸಲು ಎಲೆಗಳ ಫೋಟೋ ಕಳುಹಿಸಿ. ಅಷ್ಟರಲ್ಲಿ ಬೇವಿನ ಎಣ್ಣೆ ಸಿಂಪಡಿಸಿ.")]
  (assocGet? responses language).getD pest_response_en

/-- The `'en'` entry of `_generate_weather_response`'s local table. -/
def weather_response_en : String :=
  "Tell me your location for weather information. Protect crops before rain."

/-- `_generate_weather_response`. -/
def generate_weather_response (_entities : EntityMap) (_context : ConversationContext)
    (language : String) : String :=
  let responses : List (String × String) :=
    [("hi", "मौसम की जानकारी के लिए आपका स्थान बताएं। बारिश से पहले फसल की सुरक्षा करें।"),
     ("en", weather_response_en),
     ("kn", "ಹವಾಮಾನ ಮಾಹಿತಿಗಾಗಿ ನಿಮ್ಮ ಸ್ಥಳವನ್ನು ಹೇಳಿ. ಮಳೆಯ ಮೊದಲು ಬೆಳೆಗಳನ್ನು ರಕ್ಷಿಸಿ.")]
  (assocGet? responses language).getD weather_response_en

/-- The `'en'` entry of `_generate_market_response`'s local table. -/
def market_response_en : String :=
  "Tell me the crop name to know market rates. You can check today" ++ apos ++ "s prices."

/-- `_generate_market_response`. -/
def generate_market_response (_entities : EntityMap) (_context : ConversationContext)
    (language : String) : String :=
  let responses : List (String × String) :=
    [("hi", "बाजार भाव जानने के लिए फसल का नाम बताएं। आज के रेट देख सकते हैं।"),
     ("en", market_response_en),
     ("kn", "ಮಾರುಕಟ್ಟೆ ದರಗಳನ್ನು ತಿಳಿಯಲು ಬೆಳೆಯ ಹೆಸರು ಹೇಳಿ. ಇಂದಿನ ಬೆಲೆಗಳನ್ನು ನೋಡಬಹುದು.")]
  (assocGet? responses language).getD market_response_en

/-- The `'en'` entry of `_generate_general_response`'s local table. -/
def general_response_en : String :=
  "I am here to help with your farming. You can ask about crops, pests, weather, or market."

/-- `_generate_general_response`. -/
def generate_general_response (_entities : EntityMap) (_context : ConversationContext)
    (language : String) : String :=
  let responses : List (String × String) :=
    [("hi", "मैं आपकी खेती में मदद के लिए यहाँ हूँ। फसल, कीट, मौसम या बाजार के बारे में पूछ सकते हैं।"),
     ("en", general_response_en),
     ("kn", "ನಾನು ನಿಮ್ಮ ಕೃಷಿಗೆ ಸಹಾಯ ಮಾಡಲು ಇಲ್ಲಿದ್ದೇನೆ. ಬೆಳೆ, ಕೀಟ, ಹವಾಮಾನ ಅಥವಾ ಮಾರುಕಟ್ಟೆ ಬಗ್ಗೆ ಕೇಳಬಹುದು.")]
  (assocGet? responses language).getD general_response_en

/-- `VoiceProcessingSystem._generate_response`: the intent dispatch.
The first branch fires for the `greeting` intent or an empty
conversation history and indexes the greeting template directly. -/
def generate_response (intent : String) (entities : EntityMap) (context : ConversationContext)
    (language : String) : Option String :=
  if intent = "greeting" ∨ context.conversation_history = [] then
    templateFor "greeting" language
  else if intent = "crop_advice" then
    generate_crop_advice_response entities context language
  else if intent = "pest_disease" then
    some (generate_pest_response entities context language)
  else if intent = "weather" then
    some (generate_weather_response entities context language)
  else if intent = "market_price" then
    some (generate_market_response entities context language)
  else
    some (generate_general_response entities context language)

/-! ## ConversationManager -/

/-- The manager: the `active_sessions` dict plus the (never consulted)
`session_timeout` field, set to `3600` seconds by `__init__`. -/
structure ConversationManager where
  active_sessions : List (String × ConversationContext)
  session_timeout : Nat
  deriving DecidableEq, Repr

/-- The fresh context built by `get_or_create_context` for an unknown
session: empty intent, entities, history and profiles. -/
def freshContext (user_id session_id language : String) : ConversationContext :=
  ⟨user_id, session_id, language, "", [], [], [], []⟩

/-- `ConversationManager.get_or_create_context`: return the stored
context (refreshing its language) when the session id is known, else
register and return a fresh one.  No expiry check of any kind is
performed and `session_timeout` is never read. -/
def get_or_create_context (m : ConversationManager) (user_id session_id language : String) :
    ConversationContext × ConversationManager :=
  if assocMem m.active_sessions session_id then
    match assocGet? m.active_sessions session_id with
    | some context =>
      let context := { context with language := language }
      (context, { m with active_sessions := assocSet m.active_sessions session_id context })
    | none =>
      let context := freshContext user_id session_id language
      (context, { m with active_sessions := assocSet m.active_sessions session_id context })
  else
    let context := freshContext user_id session_id language
    (context, { m with active_sessions := assocSet m.active_sessions session_id context })

/-- Python's `l[-n:]`: the at most `n` most recent elements. -/
def lastN {α : Type} (n : Nat) (l : List α) : List α := (l.reverse.take n).reverse

/-- `ConversationManager.update_context`: only for a known session id,
set the current intent, `dict.update` the accumulated entities, append
the turn record and truncate the history to the last 10 entries.  The
`timestamp` argument stands for `datetime.now().isoformat()`. -/
def update_context (m : ConversationManager) (session_id intent : String)
    (entities : EntityMap) (user_input response timestamp : String) : ConversationManager :=
  if assocMem m.active_sessions session_id then
    match assocGet? m.active_sessions session_id with
    | some context =>
      let context :=
        { context with
          current_intent := intent,
          entities := dictUpdate context.entities entities,
          conversation_history :=
            lastN 10 (context.conversation_history ++
              [⟨timestamp, user_input, intent, entities, response⟩]) }
      { m with active_sessions := assocSet m.active_sessions session_id context }
    | none => m
  else m

/-! ## Orchestrator: one turn after transcription

Steps 3 and 4 of `VoiceProcessingSystem.process_voice_input`: NLU over
the transcribed text, then response generation against the context *as
fetched* — `update_context` (step 6) only runs after the response is
generated. -/

/-- The (intent, entities, response text) of one pipeline turn. -/
def pipeline_turn (ml : Option Unit) (ner : Option (List NerHit))
    (transcribed_text detected_language : String) (context : ConversationContext) :
    String × EntityMap × Option String :=
  let u := understand ml ner transcribed_text detected_language context
  (u.1, u.2.1, generate_response u.1 u.2.1 context detected_language)

/-! ## Derived definitions used by the statements -/

/-- Iterated `update_context` for one session: the N turns of a
conversation, in arrival order. -/
def runUpdates (m : ConversationManager) (session_id : String) :
    List TurnRecord → ConversationManager
  | [] => m
  | r :: rs =>
    runUpdates (update_context m session_id r.intent r.entities r.user_input r.response
      r.timestamp) session_id rs

/-- "The text contains no keyword from any intent's language-specific
keyword list" (the keyword sets actually consulted by
`_classify_intent` for this language). -/
def noIntentKeyword (text language : String) : Bool :=
  multilingual_keywords.all
    (fun p => (keywordsForLang p.2 language).all (fun kw => !strContains text kw))

/-- The supported language set of the system. -/
def supported_languages : List String := ["hi", "en", "kn"]

/-! ### Concrete fixtures for the closed statements -/

/-- A registered context that has already accumulated a `crops` entity. -/
def ctx_rice : ConversationContext :=
  { freshContext "farmer1" "s1" "en" with entities := [("crops", [⟨"rice", 4/5⟩])] }

/-- A one-session store holding `ctx_rice`. -/
def mgr_rice : ConversationManager := ⟨[("s1", ctx_rice)], 3600⟩

/-- A turn entity map carrying a new value for the `crops` key. -/
def turn_wheat : EntityMap := [("crops", [⟨"wheat", 4/5⟩])]

/-- A one-session store holding a fresh (empty-history) context. -/
def mgr_fresh : ConversationManager := ⟨[("s1", freshContext "farmer1" "s1" "en")], 3600⟩

/-- A context whose conversation history is non-empty. -/
def ctx_hist : ConversationContext :=
  { freshContext "farmer1" "s2" "en" with
    conversation_history := [⟨"2024-06-01T10:00:00", "hello", "general_query", [], "hi"⟩] }

/-- Three turn records, for exercising the history bound. -/
def sampleTurns : List TurnRecord :=
  [⟨"t1", "i1", "weather", [], "r1"⟩,
   ⟨"t2", "i2", "weather", [], "r2"⟩,
   ⟨"t3", "i3", "market_price", [], "r3"⟩]

/-! ## Association-list lemmas -/

theorem assocMem_eq_isSome {α : Type} (m : List (String × α)) (k : String) :
    assocMem m k = (assocGet? m k).isSome := by
  induction m with
  | nil => rfl
  | cons p t ih =>
    obtain ⟨k', v⟩ := p
    by_cases hk : k' = k
    · simp [assocMem, assocGet?, hk]
    · simpa [assocMem, assocGet?, hk] using ih

theorem assocGet?_replace_self {α : Type} (m : List (String × α)) (k : String) (v : α)
    (h : assocMem m k = true) : assocGet? (assocReplace m k v) k = some v := by
  induction m with
  | nil => simp [assocMem] at h
  | cons p t ih =>
    obtain ⟨k', v'⟩ := p
    by_cases hk : k' = k
    · simp [assocReplace, assocGet?, hk]
    · simp only [assocMem, hk, if_false] at h
      simpa [assocReplace, assocGet?, hk] using ih h

theorem assocGet?_append_single {α : Type} (m : List (String × α)) (k : String) (v : α)
    (h : assocMem m k = false) : assocGet? (m ++ [(k, v)]) k = some v := by
  induction m with
  | nil => simp [assocGet?]
  | cons p t ih =>
    obtain ⟨k', v'⟩ := p
    by_cases hk : k' = k
    · simp [assocMem, hk] at h
    · simp only [assocMem, hk, if_false] at h
      simpa [assocGet?, hk] using ih h

theorem assocGet?_set_self {α : Type} (m : List (String × α)) (k : String) (v : α) :
    assocGet? (assocSet m k v) k = some v := by
  unfold assocSet
  by_cases h : assocMem m k
  · simpa [h] using assocGet?_replace_self m k v h
  · have h' : assocMem m k = false := by simpa using h
    simpa [h'] using assocGet?_append_single m k v h'

theorem assocGet?_replace_ne {α : Type} (m : List (String × α)) (k' k : String) (v : α)
    (h : k' ≠ k) : assocGet? (assocReplace m k' v) k = assocGet? m k := by
  induction m with
  | nil => rfl
  | cons p t ih =>
    obtain ⟨k₀, v₀⟩ := p
    by_cases hk : k₀ = k'
    · subst hk
      simp [assocReplace, assocGet?, h, ih]
    · simp [assocReplace, assocGet?, hk, ih]

theorem assocGet?_append_single_ne {α : Type} (m : List (String × α)) (k' k : String) (v : α)
    (h : k' ≠ k) : assocGet? (m ++ [(k', v)]) k = assocGet? m k := by
  induction m with
  | nil => simp [assocGet?, h]
  | cons p t ih =>
    obtain ⟨k₀, v₀⟩ := p
    by_cases hk : k₀ = k
    · simp [assocGet?, hk]
    · simpa [assocGet?, hk] using ih

theorem assocGet?_set_ne {α : Type} (m : List (String × α)) (k' k : String) (v : α)
    (h : k' ≠ k) : assocGet? (assocSet m k' v) k = assocGet? m k := by
  unfold assocSet
  by_cases hm : assocMem m k'
  · simpa [hm] using assocGet?_replace_ne m k' k v h
  · simpa [hm] using assocGet?_append_single_ne m k' k v h

theorem assocMem_eq_true_iff {α : Type} (m : List (String × α)) (k : String) :
    assocMem m k = true ↔ k ∈ m.map Prod.fst := by
  induction m with
  | nil => simp [assocMem]
  | cons p t ih =>
    obtain ⟨k', v⟩ := p
    by_cases hk : k' = k
    · simp [assocMem, hk]
    · simp [assocMem, hk, ih, Ne.symm hk]

theorem dictUpdate_cons {α : Type} (m : List (String × α)) (p : String × α)
    (t : List (String × α)) : dictUpdate m (p :: t) = dictUpdate (assocSet m p.1 p.2) t := rfl

theorem assocGet?_dictUpdate_not_mem {α : Type} (other : List (String × α)) (k : String) :
    ∀ m : List (String × α), assocMem other k = false →
      assocGet? (dictUpdate m other) k = assocGet? m k := by
  induction other with
  | nil => intro m _; rfl
  | cons p t ih =>
    intro m h
    obtain ⟨k₁, v₁⟩ := p
    by_cases hk : k₁ = k
    · simp [assocMem, hk] at h
    · simp only [assocMem, hk, if_false] at h
      rw [dictUpdate_cons, ih _ h, assocGet?_set_ne _ _ _ _ hk]

theorem assocGet?_dictUpdate_of_get {α : Type} (other : List (String × α)) (k : String)
    (v : α) : ∀ m : List (String × α), (other.map Prod.fst).Nodup →
      assocGet? other k = some v → assocGet? (dictUpdate m other) k = some v := by
  induction other with
  | nil => intro m _ h; simp [assocGet?] at h
  | cons p t ih =>
    intro m hnd h
    obtain ⟨k₁, v₁⟩ := p
    rw [dictUpdate_cons]
    by_cases hk : k₁ = k
    · subst hk
      have hv : v₁ = v := by simpa [assocGet?] using h
      subst hv
      have hnd2 : (k₁ :: t.map Prod.fst).Nodup := by
        rw [List.map_cons] at hnd; exact hnd
      have hmem : assocMem t k₁ = false := by
        rw [← Bool.not_eq_true, assocMem_eq_true_iff]
        exact (List.nodup_cons.mp hnd2).1
      rw [assocGet?_dictUpdate_not_mem t k₁ _ hmem]
      exact assocGet?_set_self m k₁ v₁
    · have h' : assocGet? t k = some v := by simpa [assocGet?, hk] using h
      have hnd2 : (k₁ :: t.map Prod.fst).Nodup := by
        rw [List.map_cons] at hnd; exact hnd
      exact ih _ (List.nodup_cons.mp hnd2).2 h'

/-! ## Lemmas about `lastN` (Python's `l[-n:]`) -/

theorem lastN_length {α : Type} (n : Nat) (l : List α) :
    (lastN n l).length = min n l.length := by
  simp [lastN]

theorem lastN_of_length_le {α : Type} {n : Nat} {l : List α} (h : l.length ≤ n) :
    lastN n l = l := by
  have : l.reverse.length ≤ n := by simpa using h
  simp [lastN, List.take_of_length_le this]

theorem take_append_take {α : Type} (n : Nat) (a b : List α) :
    (a ++ b.take n).take n = (a ++ b).take n := by
  rw [List.take_append_eq_append_take, List.take_append_eq_append_take, List.take_take,
    Nat.min_eq_left (Nat.sub_le n a.length)]

theorem lastN_lastN_append {α : Type} (n : Nat) (xs ys : List α) :
    lastN n (lastN n xs ++ ys) = lastN n (xs ++ ys) := by
  unfold lastN
  rw [List.reverse_append, List.reverse_reverse, List.reverse_append, take_append_take]

/-! ## Lemmas about the context store operations -/

theorem lookup_update_context {m : ConversationManager} {session_id : String}
    {ctx : ConversationContext} (h : assocGet? m.active_sessions session_id = some ctx)
    (intent : String) (entities : EntityMap) (user_input response timestamp : String) :
    assocGet? (update_context m session_id intent entities user_input response
        timestamp).active_sessions session_id =
      some { ctx with
             current_intent := intent,
             entities := dictUpdate ctx.entities entities,
             conversation_history :=
               lastN 10 (ctx.conversation_history ++
                 [⟨timestamp, user_input, intent, entities, response⟩]) } := by
  have hm : assocMem m.active_sessions session_id = true := by
    rw [assocMem_eq_isSome, h]; rfl
  simp only [update_context, hm, h, if_true]
  exact assocGet?_set_self _ _ _

theorem runUpdates_history {session_id : String} :
    ∀ (rs : List TurnRecord) (m : ConversationManager) (ctx : ConversationContext),
      assocGet? m.active_sessions session_id = some ctx →
      ctx.conversation_history.length ≤ 10 →
      ∃ ctx', assocGet? (runUpdates m session_id rs).active_sessions session_id = some ctx' ∧
        ctx'.conversation_history = lastN 10 (ctx.conversation_history ++ rs) := by
  intro rs
  induction rs with
  | nil =>
    intro m ctx h hlen
    exact ⟨ctx, h, by rw [List.append_nil, lastN_of_length_le hlen]⟩
  | cons r t ih =>
    intro m ctx h hlen
    have h1 := lookup_update_context h r.intent r.entities r.user_input r.response r.timestamp
    have hrec : (⟨r.timestamp, r.user_input, r.intent, r.entities, r.response⟩ : TurnRecord)
        = r := rfl
    rw [hrec] at h1
    have hlen₁ : (lastN 10 (ctx.conversation_history ++ [r])).length ≤ 10 := by
      rw [lastN_length]; exact Nat.min_le_left _ _
    obtain ⟨ctx', hget, hhist⟩ := ih _ _ h1 hlen₁
    refine ⟨ctx', hget, ?_⟩
    rw [hhist]
    show lastN 10 (lastN 10 (ctx.conversation_history ++ [r]) ++ t) = _
    rw [lastN_lastN_append, List.append_assoc]
    rfl

/-! ## Claim theorems: the context store -/

/-- C7: for every session id not present in the store at the time
`update_context` is called, the call is a silent no-op — the manager
(its session set and every stored context) is returned unchanged. -/
theorem update_context_unknown_session_noop (m : ConversationManager)
    (session_id intent : String) (entities : EntityMap)
    (user_input response timestamp : String)
    (h : assocGet? m.active_sessions session_id = none) :
    update_context m session_id intent entities user_input response timestamp = m := by
  have hm : assocMem m.active_sessions session_id = false := by
    rw [assocMem_eq_isSome, h]; rfl
  simp [update_context, hm]

/-- Witness for C7: updating a session id absent from a concrete
one-session store leaves the store untouched. -/
theorem update_context_unknown_session_noop_witness :
    update_context mgr_rice "nope" "weather" [] "i" "r" "t" = mgr_rice :=
  update_context_unknown_session_noop mgr_rice "nope" "weather" [] "i" "r" "t" (by decide)

/-- C3 (code bug): `get_or_create_context` performs no expiry check at
all — for every value of `session_timeout` and every stored context
(however stale), the lookup returns the stored context (only its
language refreshed) instead of constructing a fresh one; the manager
does not even record a last-access time. -/
theorem get_or_create_never_expires (timeout : Nat) (stored : ConversationContext) :
    (get_or_create_context ⟨[("s1", stored)], timeout⟩ "u2" "s1" "en").1 =
      { stored with language := "en" } ∧
    (get_or_create_context ⟨[("s1", stored)], timeout⟩ "u2" "s1" "en").2.active_sessions =
      [("s1", { stored with language := "en" })] := by
  constructor <;> simp [get_or_create_context, assocMem, assocGet?, assocSet, assocReplace]

/-- C2 counterexample: a context has accumulated `crops ↦ [rice]`; an
update whose turn entities carry `crops ↦ [wheat]` leaves the stored
map at `crops ↦ [wheat]` — the prior value is replaced, not prepended
as the claim (`[rice, wheat]`) requires. -/
theorem update_context_overwrites_crops :
    ((assocGet? (update_context mgr_rice "s1" "crop_advice" turn_wheat "i" "r"
        "ts").active_sessions "s1").map (fun c => assocGet? c.entities "crops")) =
      some (some [⟨"wheat", 4/5⟩]) ∧
    some (some [(⟨"wheat", 4/5⟩ : EntityValue)]) ≠
      some (some [(⟨"rice", 4/5⟩ : EntityValue), ⟨"wheat", 4/5⟩]) := by
  constructor
  · rfl
  · decide

/-- C2 (amended): for every registered session, `update_context` merges
the turn's entities with `dict.update` semantics — the new value list
for a key present in the turn's entity map *replaces* whatever was
accumulated under that key, rather than being appended to it. -/
theorem update_context_replaces_entity_values (m : ConversationManager)
    (session_id intent : String) (new : EntityMap) (user_input response timestamp : String)
    (ctx : ConversationContext) (k : String) (v : List EntityValue)
    (hreg : assocGet? m.active_sessions session_id = some ctx)
    (hnd : (new.map Prod.fst).Nodup) (hk : assocGet? new k = some v) :
    ∃ ctx', assocGet? (update_context m session_id intent new user_input response
        timestamp).active_sessions session_id = some ctx' ∧
      assocGet? ctx'.entities k = some v := by
  refine ⟨_, lookup_update_context hreg intent new user_input response timestamp, ?_⟩
  exact assocGet?_dictUpdate_of_get new k v ctx.entities hnd hk

/-- Witness for the amended C2 at a concrete store and turn. -/
theorem update_context_replaces_entity_values_witness :
    ∃ ctx', assocGet? (update_context mgr_rice "s1" "crop_advice" turn_wheat "i" "r"
        "ts").active_sessions "s1" = some ctx' ∧
      assocGet? ctx'.entities "crops" = some [⟨"wheat", 4/5⟩] :=
  update_context_replaces_entity_values mgr_rice "s1" "crop_advice" turn_wheat "i" "r" "ts"
    ctx_rice "crops" [⟨"wheat", 4/5⟩] rfl (by decide) rfl

/-- C6: for every session registered with an empty history, after the
updates of the turn list `rs` the stored history is `lastN 10 rs` (the
most recent turns in arrival order, oldest dropped first) and its
length is `min rs.length 10`. -/
theorem conversation_history_bound (m : ConversationManager) (session_id : String)
    (ctx : ConversationContext) (rs : List TurnRecord)
    (hreg : assocGet? m.active_sessions session_id = some ctx)
    (hemp : ctx.conversation_history = []) :
    ∃ ctx', assocGet? (runUpdates m session_id rs).active_sessions session_id = some ctx' ∧
      ctx'.conversation_history = lastN 10 rs ∧
      ctx'.conversation_history.length = min rs.length 10 := by
  obtain ⟨ctx', hget, hhist⟩ := runUpdates_history rs m ctx hreg (by rw [hemp]; simp)
  rw [hemp, List.nil_append] at hhist
  exact ⟨ctx', hget, hhist, by rw [hhist, lastN_length, Nat.min_comm]⟩

/-- Witness for C6: three turns on a fresh session give a history of
length `min 3 10 = 3` holding exactly those turns. -/
theorem conversation_history_bound_witness :
    ∃ ctx', assocGet? (runUpdates mgr_fresh "s1" sampleTurns).active_sessions "s1" =
        some ctx' ∧
      ctx'.conversation_history = lastN 10 sampleTurns ∧
      ctx'.conversation_history.length = min sampleTurns.length 10 :=
  conversation_history_bound mgr_fresh "s1" (freshContext "farmer1" "s1" "en") sampleTurns
    (by decide) (by decide)

/-! ## Claim theorems: the speech-to-text adapter -/

/-- C8: when the primary engine yields confidence 0.5 and a secondary
engine is configured and returns confidence 0.85, `transcribe` returns
the secondary engine's text with confidence 0.85 (the detected language
still coming from the primary transcription). -/
theorem transcribe_secondary_replaces (stat : Option String)
    (primary_text azure_text : String) :
    transcribe stat (some (primary_text, 1/2)) true (azure_text, 17/20) =
      (azure_text, detect_language stat primary_text none, 17/20) := by
  simp only [transcribe, whisper_transcribe]
  rw [if_pos ⟨by norm_num, trivial⟩, if_pos (by norm_num : (17 : ℚ)/20 > 1/2)]

/-- C10: in every successful `transcribe` call the returned language is
the one the language detector computed from the *primary* engine's
transcription text — whatever the secondary engine's configuration or
output, only the text and confidence components can change. -/
theorem transcribe_language_from_primary (stat : Option String) (primary_text : String)
    (confidence : ℚ) (azure_speech_key : Bool) (azure : String × ℚ) :
    (transcribe stat (some (primary_text, confidence)) azure_speech_key azure).2.1 =
      detect_language stat primary_text none := by
  simp only [transcribe, whisper_transcribe]
  split_ifs <;> rfl

/-! ## Claim theorems: the language detector -/

/-- C9 counterexample: the text `"फसल crop"` contains the keyword
`"crop"` from the `en` list, yet `detect_language` returns `"hi"` (the
`hi` keyword `"फसल"` wins by priority order), so the claim fails at
`L = en`. -/
theorem detect_language_counterexample :
    (((assocGet? language_keywords "en").getD []).any
        (fun kw => strContains "फसल crop" kw)) = true ∧
    detect_language none "फसल crop" none = "hi" ∧ ("hi" : String) ≠ "en" := by
  refine ⟨by decide, by decide, by decide⟩

/-- C9 (amended): for every supported language `L` and every text that
contains an `L`-keyword *and no keyword of a language preceding `L` in
the detector's fixed priority order (`hi`, `en`, `kn`)*,
`detect_language` returns `L`, and it does so identically whether the
audio-features argument is supplied or absent. -/
theorem detect_language_keyword_priority (stat : Option String) (text L : String)
    (audio_features : Option Unit)
    (hL : L ∈ language_keywords.map Prod.fst)
    (hhit : ((assocGet? language_keywords L).getD []).any
        (fun kw => strContains text kw) = true)
    (hprior : ((language_keywords.map Prod.fst).takeWhile (fun l => l != L)).all
        (fun l => !(((assocGet? language_keywords l).getD []).any
            (fun kw => strContains text kw))) = true) :
    detect_language stat text audio_features = L := by
  have hdet : detect_from_text stat text = L := by
    have hL3 : L = "hi" ∨ L = "en" ∨ L = "kn" := by
      simpa [language_keywords] using hL
    rcases hL3 with rfl | rfl | rfl
    · simp only [language_keywords, assocGet?, if_pos, reduceIte, Option.getD_some] at hhit
      simp [detect_from_text, language_keywords, List.find?, hhit]
    · have hgEn : (assocGet? language_keywords "en").getD [] =
          ["crop", "farm", "seed", "water", "fertilizer", "pest", "disease", "soil"] := by
        decide
      have hgHi : (assocGet? language_keywords "hi").getD [] =
          ["फसल", "खेत", "बीज", "पानी", "उर्वरक", "कीट", "रोग", "मिट्टी"] := by decide
      rw [hgEn] at hhit
      have ht : (language_keywords.map Prod.fst).takeWhile (fun l => l != "en") =
          ["hi"] := by decide
      rw [ht] at hprior
      simp only [List.all_cons, List.all_nil, Bool.and_true, Bool.not_eq_true',
        hgHi] at hprior
      simp [detect_from_text, language_keywords, List.find?, hprior, hhit]
    · have hgKn : (assocGet? language_keywords "kn").getD [] =
          ["ಬೆಳೆ", "ಹೊಲ", "ಬೀಜ", "ನೀರು", "ಗೊಬ್ಬರ", "ಕೀಟ", "ರೋಗ", "ಮಣ್ಣು"] := by decide
      have hgHi : (assocGet? language_keywords "hi").getD [] =
          ["फसल", "खेत", "बीज", "पानी", "उर्वरक", "कीट", "रोग", "मिट्टी"] := by decide
      have hgEn : (assocGet? language_keywords "en").getD [] =
          ["crop", "farm", "seed", "water", "fertilizer", "pest", "disease", "soil"] := by
        decide
      rw [hgKn] at hhit
      have ht : (language_keywords.map Prod.fst).takeWhile (fun l => l != "kn") =
          ["hi", "en"] := by decide
      rw [ht] at hprior
      simp only [List.all_cons, List.all_nil, Bool.and_true, Bool.and_eq_true,
        Bool.not_eq_true', hgHi, hgEn] at hprior
      obtain ⟨hp1, hp2⟩ := hprior
      simp [detect_from_text, language_keywords, List.find?, hp1, hp2, hhit]
  cases audio_features with
  | none => simpa [detect_language] using hdet
  | some features => simpa [detect_language, detect_from_audio] using hdet

/-- Witness for the amended C9: a Hindi keyword with audio features
supplied. -/
theorem detect_language_keyword_priority_witness :
    detect_language none "फसल" (some ()) = "hi" :=
  detect_language_keyword_priority none "फसल" "hi" (some ()) (by decide) (by decide)
    (by decide)

/-! ## Claim theorems: the NLU fallback path -/

theorem filter_eq_nil_of_all_not {α : Type} (l : List α) (p : α → Bool)
    (h : l.all (fun x => !p x) = true) : l.filter p = [] := by
  induction l with
  | nil => rfl
  | cons a t ih =>
    simp only [List.all_cons, Bool.and_eq_true, Bool.not_eq_true'] at h
    simp [List.filter_cons, h.1, ih h.2]

theorem classify_intent_no_keywords (text language : String) (ctx : ConversationContext)
    (h : noIntentKeyword text language = true) :
    classify_intent none text language ctx = ("general_query", 1/2) := by
  simp only [noIntentKeyword, multilingual_keywords, List.all_cons, List.all_nil,
    Bool.and_true, Bool.and_eq_true] at h
  have f1 := filter_eq_nil_of_all_not _ (fun kw => strContains text kw) h.1
  have f2 := filter_eq_nil_of_all_not _ (fun kw => strContains text kw) h.2
  simp [classify_intent, multilingual_keywords, f1, f2, assocMem, maxByValue]

/-- C4 counterexample: for the text `"hello there"` (which contains no
keyword of any intent) with a failing fallback classifier, `understand`
returns intent `general_query` but overall confidence
`0.5 × 0.8 + 0.2 = 0.6`, not `0.5`. -/
theorem understand_no_keyword_counterexample :
    noIntentKeyword "hello there" "en" = true ∧
    understand none none "hello there" "en" (freshContext "u" "s" "en") =
      ("general_query", [], 3/5) ∧ ((3 : ℚ)/5) ≠ 1/2 := by
  refine ⟨by decide, ?_, by norm_num⟩
  have h : understand none none "hello there" "en" (freshContext "u" "s" "en") =
      ("general_query", [], (1 : ℚ)/2 * (4/5) + 1/5) := rfl
  rw [h]
  norm_num

/-- C4 (amended): for every text whose preprocessed form contains no
keyword from any intent's language-specific keyword list, if the
fallback intent classifier raises, `understand` returns (without
raising) intent `general_query` with overall confidence exactly
`0.6` — the fallback intent confidence `0.5` scaled by `× 0.8 + 0.2`. -/
theorem understand_no_keyword_fallback (ner : Option (List NerHit)) (text language : String)
    (ctx : ConversationContext)
    (h : noIntentKeyword (preprocess_text text language) language = true) :
    (understand none ner text language ctx).1 = "general_query" ∧
    (understand none ner text language ctx).2.2 = 3/5 := by
  have hc := classify_intent_no_keywords (preprocess_text text language) language ctx h
  constructor
  · show (classify_intent none (preprocess_text text language) language ctx).1 = _
    rw [hc]
  · show (classify_intent none (preprocess_text text language) language ctx).2 *
      (4/5) + 1/5 = 3/5
    rw [hc]
    norm_num

/-- Witness for the amended C4 at the concrete text `"hello there"`. -/
theorem understand_no_keyword_fallback_witness :
    (understand none none "hello there" "en" ctx_hist).1 = "general_query" ∧
    (understand none none "hello there" "en" ctx_hist).2.2 = 3/5 :=
  understand_no_keyword_fallback none "hello there" "en" ctx_hist (by decide)

/-! ## Claim theorems: the pest-damage scenario turn -/

/-- C1 counterexample: on the scenario turn (text "I need help with
pest damage on my tomato", language `en`, empty conversation history)
the generated response is the *greeting* template, which differs both
from `_generate_pest_response`'s text and from the `pest_disease` entry
of the template table — the claim's response part fails. -/
theorem pipeline_pest_scenario_counterexample :
    (pipeline_turn none (some []) "I need help with pest damage on my tomato" "en"
        (freshContext "anonymous" "session1" "en")).2.2 =
      some "Hello! I am Hasiru Mitra. How can I help you with your farming today?" ∧
    ("Hello! I am Hasiru Mitra. How can I help you with your farming today?" : String) ≠
      pest_response_en ∧
    some ("Hello! I am Hasiru Mitra. How can I help you with your farming today?" : String) ≠
      templateFor "pest_disease" "en" := by
  refine ⟨rfl, by decide, by decide⟩

/-- C1 (amended): on the scenario turn the NLU classifies the intent as
`pest_disease` and extracts `crops ↦ [tomato]`, but the response text
is the `en` *greeting* template: the context's history is still empty
when the response is generated (the context is only updated
afterwards), and `_generate_response` greets on an empty history. -/
theorem pipeline_pest_scenario :
    pipeline_turn none (some []) "I need help with pest damage on my tomato" "en"
        (freshContext "anonymous" "session1" "en") =
      ("pest_disease", [("crops", [⟨"tomato", 4/5⟩])], templateFor "greeting" "en") := rfl

/-! ## Claim theorems: the response generator -/


/-- C5 counterexample: for the unsupported language `"ta"` with an
empty conversation history, `_generate_response` takes the greeting
branch, whose direct template indexing raises a `KeyError` (`none`)
instead of falling back to the `en` template. -/
theorem generate_response_unsupported_raises :
    generate_response "pest_disease" [] (freshContext "u" "s" "ta") "ta" = none := rfl

theorem append_ne_empty_right (a b : String) (hb : b.length ≠ 0) : a ++ b ≠ "" := by
  intro h
  have h0 : (a ++ b).length = 0 := by rw [h]; rfl
  rw [String.length_append] at h0
  omega

theorem getD_three_unsupported (a b c : String) (language : String)
    (n1 : language ≠ "hi") (n2 : language ≠ "en") (n3 : language ≠ "kn") :
    (assocGet? [("hi", a), ("en", b), ("kn", c)] language).getD b = b := by
  simp [assocGet?, Ne.symm n1, Ne.symm n2, Ne.symm n3]

theorem getD_three_en (a b c : String) :
    (assocGet? [("hi", a), ("en", b), ("kn", c)] "en").getD b = b := by
  simp [assocGet?]

theorem generate_crop_advice_nonempty (entities : EntityMap) (context : ConversationContext)
    (language : String) (hlang : language ∈ supported_languages)
    (hcrops : assocGet? entities "crops" ≠ some []) :
    ∃ t, generate_crop_advice_response entities context language = some t ∧ t ≠ "" := by
  have hl3 : language = "hi" ∨ language = "en" ∨ language = "kn" := by
    simpa [supported_languages] using hlang
  by_cases hmem : assocMem entities "crops" = true
  · have hsome : (assocGet? entities "crops").isSome = true := by
      rw [← assocMem_eq_isSome]; exact hmem
    cases hget : assocGet? entities "crops" with
    | none => rw [hget] at hsome; simp at hsome
    | some l =>
      cases l with
      | nil => exact absurd hget hcrops
      | cons e es =>
        rcases hl3 with rfl | rfl | rfl
        · have hval : generate_crop_advice_response entities context "hi" =
              some (e.value ++
                " की खेती के लिए सबसे पहले मिट्टी की जांच कराएं। उचित बीज का चयन करें।") := by
            simp [generate_crop_advice_response, hmem, hget, assocGet?]
          exact ⟨_, hval, append_ne_empty_right _ _ (by decide)⟩
        · have hval : generate_crop_advice_response entities context "en" =
              some ("For " ++ e.value ++
                " cultivation, first get your soil tested. Choose appropriate seeds.") := by
            simp [generate_crop_advice_response, hmem, hget, assocGet?]
          exact ⟨_, hval, append_ne_empty_right _ _ (by decide)⟩
        · have hval : generate_crop_advice_response entities context "kn" =
              some (e.value ++
                " ಬೆಳವಣಿಗೆಗಾಗಿ, ಮೊದಲು ನಿಮ್ಮ ಮಣ್ಣಿನ ಪರೀಕ್ಷೆ ಮಾಡಿಸಿ. ಸೂಕ್ತವಾದ ಬೀಜಗಳನ್ನು ಆಯ್ಕೆಮಾಡಿ.") := by
            simp [generate_crop_advice_response, hmem, hget, assocGet?]
          exact ⟨_, hval, append_ne_empty_right _ _ (by decide)⟩
  · have hmem' : assocMem entities "crops" = false := by simpa using hmem
    rcases hl3 with rfl | rfl | rfl
    · have hval : generate_crop_advice_response entities context "hi" =
          some "आपकी फसल के बारे में मुझे बताएं। कौन सी फसल उगाना चाहते हैं?" := by
        simp [generate_crop_advice_response, hmem', templateFor, response_templates,
          assocGet?]
      exact ⟨_, hval, by decide⟩
    · have hval : generate_crop_advice_response entities context "en" =
          some "Tell me about your crop. Which crop do you want to grow?" := by
        simp [generate_crop_advice_response, hmem', templateFor, response_templates,
          assocGet?]
      exact ⟨_, hval, by decide⟩
    · have hval : generate_crop_advice_response entities context "kn" =
          some "ನಿಮ್ಮ ಬೆಳೆಯ ಬಗ್ಗೆ ಹೇಳಿ. ಯಾವ ಬೆಳೆ ಬೆಳೆಯಲು ಬಯಸುತ್ತೀರಿ?" := by
        simp [generate_crop_advice_response, hmem', templateFor, response_templates,
          assocGet?]
      exact ⟨_, hval, by decide⟩

/-- C5 (amended): for every intent, entity map (whose `crops` entry, if
present, is non-empty — an empty one makes `entities['crops'][0]` raise)
and context: for a supported language (`hi`, `en`, `kn`) the generator
returns non-empty text; for an unsupported language it returns exactly
the `en` result *except* in the greeting branch (intent `greeting` or
empty history) and the entity-less `crop_advice` branch, which index
the template table directly and raise instead of falling back. -/
theorem generate_response_fallback (intent : String) (entities : EntityMap)
    (context : ConversationContext) (language : String)
    (hcrops : assocGet? entities "crops" ≠ some []) :
    (language ∈ supported_languages →
      ∃ t, generate_response intent entities context language = some t ∧ t ≠ "") ∧
    (language ∉ supported_languages →
      ¬(intent = "greeting" ∨ context.conversation_history = []) →
      (intent = "crop_advice" → assocMem entities "crops" = true) →
      generate_response intent entities context language =
        generate_response intent entities context "en") := by
  constructor
  · intro hlang
    have hl3 : language = "hi" ∨ language = "en" ∨ language = "kn" := by
      simpa [supported_languages] using hlang
    by_cases h1 : intent = "greeting" ∨ context.conversation_history = []
    · rcases hl3 with rfl | rfl | rfl
      · have hval : generate_response intent entities context "hi" =
            some "नमस्ते! मैं हसिरु मित्र हूँ। आपकी खेती में कैसे मदद कर सकती हूँ?" := by
          simp only [generate_response]
          rw [if_pos h1]
          rfl
        exact ⟨_, hval, by decide⟩
      · have hval : generate_response intent entities context "en" =
            some "Hello! I am Hasiru Mitra. How can I help you with your farming today?" := by
          simp only [generate_response]
          rw [if_pos h1]
          rfl
        exact ⟨_, hval, by decide⟩
      · have hval : generate_response intent entities context "kn" =
            some "ನಮಸ್ಕಾರ! ನಾನು ಹಸಿರು ಮಿತ್ರ. ನಿಮ್ಮ ಕೃಷಿಯಲ್ಲಿ ನಾನು ಹೇಗೆ ಸಹಾಯ ಮಾಡಬಹುದು?" := by
          simp only [generate_response]
          rw [if_pos h1]
          rfl
        exact ⟨_, hval, by decide⟩
    · by_cases h2 : intent = "crop_advice"
      · obtain ⟨t, ht, hne⟩ :=
          generate_crop_advice_nonempty entities context language hlang hcrops
        refine ⟨t, ?_, hne⟩
        simp only [generate_response]
        rw [if_neg h1, if_pos h2]
        exact ht
      · by_cases h3 : intent = "pest_disease"
        · rcases hl3 with rfl | rfl | rfl
          · have hval : generate_response intent entities context "hi" =
                some "कीट या रोग की पहचान के लिए पत्तियों की तस्वीर भेजें। तब तक नीम का तेल छिड़कें।" := by
              simp only [generate_response]
              rw [if_neg h1, if_neg h2, if_pos h3]
              rfl
            exact ⟨_, hval, by decide⟩
          · have hval : generate_response intent entities context "en" =
                some pest_response_en := by
              simp only [generate_response]
              rw [if_neg h1, if_neg h2, if_pos h3]
              rfl
            exact ⟨_, hval, by decide⟩
          · have hval : generate_response intent entities context "kn" =
                some "ಕೀಟ ಅಥವಾ ರೋಗ ಗುರುತಿಸಲು ಎಲೆಗಳ ಫೋಟೋ ಕಳುಹಿಸಿ. ಅಷ್ಟರಲ್ಲಿ ಬೇವಿನ ಎಣ್ಣೆ ಸಿಂಪಡಿಸಿ." := by
              simp only [generate_response]
              rw [if_neg h1, if_neg h2, if_pos h3]
              rfl
            exact ⟨_, hval, by decide⟩
        · by_cases h4 : intent = "weather"
          · rcases hl3 with rfl | rfl | rfl
            · have hval : generate_response intent entities context "hi" =
                  some "मौसम की जानकारी के लिए आपका स्थान बताएं। बारिश से पहले फसल की सुरक्षा करें।" := by
                simp only [generate_response]
                rw [if_neg h1, if_neg h2, if_neg h3, if_pos h4]
                rfl
              exact ⟨_, hval, by decide⟩
            · have hval : generate_response intent entities context "en" =
                  some weather_response_en := by
                simp only [generate_response]
                rw [if_neg h1, if_neg h2, if_neg h3, if_pos h4]
                rfl
              exact ⟨_, hval, by decide⟩
            · have hval : generate_response intent entities context "kn" =
                  some "ಹವಾಮಾನ ಮಾಹಿತಿಗಾಗಿ ನಿಮ್ಮ ಸ್ಥಳವನ್ನು ಹೇಳಿ. ಮಳೆಯ ಮೊದಲು ಬೆಳೆಗಳನ್ನು ರಕ್ಷಿಸಿ." := by
                simp only [generate_response]
                rw [if_neg h1, if_neg h2, if_neg h3, if_pos h4]
                rfl
              exact ⟨_, hval, by decide⟩
          · by_cases h5 : intent = "market_price"
            · rcases hl3 with rfl | rfl | rfl
              · have hval : generate_response intent entities context "hi" =
                    some "बाजार भाव जानने के लिए फसल का नाम बताएं। आज के रेट देख सकते हैं।" := by
                  simp only [generate_response]
                  rw [if_neg h1, if_neg h2, if_neg h3, if_neg h4, if_pos h5]
                  rfl
                exact ⟨_, hval, by decide⟩
              · have hval : generate_response intent entities context "en" =
                    some market_response_en := by
                  simp only [generate_response]
                  rw [if_neg h1, if_neg h2, if_neg h3, if_neg h4, if_pos h5]
                  rfl
                exact ⟨_, hval, by decide⟩
              · have hval : generate_response intent entities context "kn" =
                    some "ಮಾರುಕಟ್ಟೆ ದರಗಳನ್ನು ತಿಳಿಯಲು ಬೆಳೆಯ ಹೆಸರು ಹೇಳಿ. ಇಂದಿನ ಬೆಲೆಗಳನ್ನು ನೋಡಬಹುದು." := by
                  simp only [generate_response]
                  rw [if_neg h1, if_neg h2, if_neg h3, if_neg h4, if_pos h5]
                  rfl
                exact ⟨_, hval, by decide⟩
            · rcases hl3 with rfl | rfl | rfl
              · have hval : generate_response intent entities context "hi" =
                    some "मैं आपकी खेती में मदद के लिए यहाँ हूँ। फसल, कीट, मौसम या बाजार के बारे में पूछ सकते हैं।" := by
                  simp only [generate_response]
                  rw [if_neg h1, if_neg h2, if_neg h3, if_neg h4, if_neg h5]
                  rfl
                exact ⟨_, hval, by decide⟩
              · have hval : generate_response intent entities context "en" =
                    some general_response_en := by
                  simp only [generate_response]
                  rw [if_neg h1, if_neg h2, if_neg h3, if_neg h4, if_neg h5]
                  rfl
                exact ⟨_, hval, by decide⟩
              · have hval : generate_response intent entities context "kn" =
                    some "ನಾನು ನಿಮ್ಮ ಕೃಷಿಗೆ ಸಹಾಯ ಮಾಡಲು ಇಲ್ಲಿದ್ದೇನೆ. ಬೆಳೆ, ಕೀಟ, ಹವಾಮಾನ ಅಥವಾ ಮಾರುಕಟ್ಟೆ ಬಗ್ಗೆ ಕೇಳಬಹುದು." := by
                  simp only [generate_response]
                  rw [if_neg h1, if_neg h2, if_neg h3, if_neg h4, if_neg h5]
                  rfl
                exact ⟨_, hval, by decide⟩
  · intro hnl h1 h2
    have hn : language ≠ "hi" ∧ language ≠ "en" ∧ language ≠ "kn" := by
      simpa [supported_languages, not_or] using hnl
    obtain ⟨n1, n2, n3⟩ := hn
    simp only [generate_response, if_neg h1]
    by_cases h2p : intent = "crop_advice"
    · rw [if_pos h2p, if_pos h2p]
      have hmem := h2 h2p
      have hsome : (assocGet? entities "crops").isSome = true := by
        rw [← assocMem_eq_isSome]; exact hmem
      cases hget : assocGet? entities "crops" with
      | none => rw [hget] at hsome; simp at hsome
      | some l =>
        cases l with
        | nil => exact absurd hget hcrops
        | cons e es =>
          simp only [generate_crop_advice_response, hmem, if_pos, if_true, hget,
            Option.getD_some, List.head?]
          rw [getD_three_unsupported _ _ _ _ n1 n2 n3, getD_three_en]
    · rw [if_neg h2p, if_neg h2p]
      by_cases h3 : intent = "pest_disease"
      · rw [if_pos h3, if_pos h3]
        simp only [generate_pest_response]
        rw [getD_three_unsupported _ _ _ _ n1 n2 n3, getD_three_en]
      · rw [if_neg h3, if_neg h3]
        by_cases h4 : intent = "weather"
        · rw [if_pos h4, if_pos h4]
          simp only [generate_weather_response]
          rw [getD_three_unsupported _ _ _ _ n1 n2 n3, getD_three_en]
        · rw [if_neg h4, if_neg h4]
          by_cases h5 : intent = "market_price"
          · rw [if_pos h5, if_pos h5]
            simp only [generate_market_response]
            rw [getD_three_unsupported _ _ _ _ n1 n2 n3, getD_three_en]
          · rw [if_neg h5, if_neg h5]
            simp only [generate_general_response]
            rw [getD_three_unsupported _ _ _ _ n1 n2 n3, getD_three_en]

/-- Witness for the amended C5 at a concrete supported-language call. -/
theorem generate_response_fallback_witness :
    (("en" : String) ∈ supported_languages →
      ∃ t, generate_response "weather" [] ctx_hist "en" = some t ∧ t ≠ "") ∧
    (("en" : String) ∉ supported_languages →
      ¬(("weather" : String) = "greeting" ∨ ctx_hist.conversation_history = []) →
      (("weather" : String) = "crop_advice" → assocMem ([] : EntityMap) "crops" = true) →
      generate_response "weather" [] ctx_hist "en" =
        generate_response "weather" [] ctx_hist "en") :=
  generate_response_fallback "weather" [] ctx_hist "en" (by decide)
